import Mathlib

/-!
Shallow embedding of the observer-centric sky-positioning engine of the
parapsychlab repository, together with proofs about its transforms.

The JavaScript sources are embedded over the real numbers:

* `getLocalSiderealTime`, `celestialToHorizontal`, `isSunlit` come from
  `src/utils/astronomyUtils.js`;
* `getPlanePositionRelative` comes from `src/utils/planeUtils.js` and its
  curvature-corrected variant `getPlanePositionRelativeCurved` from the
  unnamed variant file of the same module;
* `polarToCartesian` and `getSatPositionRelative` come from the satellite
  utility module;
* `extrapolatePosition`, `processPlane` and `processPlanes` come from the
  `Planes` component of `src/pages/UAPTracker.jsx`.

JavaScript's `Math.atan2` is modelled by `atan2`, and the sign-preserving
remainder operator `%` by `jsRem` (truncated division).  Nullable inputs are
modelled with `Option`.
-/

noncomputable section

/-- Model of JavaScript's `Math.atan2 y x`: four-quadrant arctangent with
range `(-pi, pi]`, `atan2 0 0 = 0`. -/
def atan2 (y x : ℝ) : ℝ :=
  if 0 < x then Real.arctan (y / x)
  else if x < 0 ∧ 0 ≤ y then Real.arctan (y / x) + Real.pi
  else if x < 0 ∧ y < 0 then Real.arctan (y / x) - Real.pi
  else if x = 0 ∧ 0 < y then Real.pi / 2
  else if x = 0 ∧ y < 0 then -(Real.pi / 2)
  else 0

/-- Truncation toward zero, as JavaScript coerces the quotient in its
remainder operator. -/
def jsTrunc (x : ℝ) : ℤ := if 0 ≤ x then ⌊x⌋ else ⌈x⌉

/-- Model of the JavaScript remainder operator `a % b` on real operands:
the result carries the sign of the dividend. -/
def jsRem (a b : ℝ) : ℝ := a - b * (jsTrunc (a / b) : ℝ)

/-- Milliseconds of the J2000.0 epoch `Date.UTC(2000, 0, 1, 12, 0, 0)`
since the Unix epoch. -/
def epochJ2000ms : ℝ := 946728000000

/-- Sign-corrected normalization of the Greenwich Mean Sidereal Time into
hours, from `getLocalSiderealTime` in `astronomyUtils.js` (lines 7-12).
`tMs` is the UTC instant in milliseconds since the Unix epoch. -/
def gmstFinal (tMs : ℝ) : ℝ :=
  let d := (tMs - epochJ2000ms) / 86400000
  let gmst := 18.697374558 + 24.06570982441908 * d
  let gmstNorm := jsRem gmst 24
  if gmstNorm < 0 then gmstNorm + 24 else gmstNorm

/-- Local Sidereal Time in hours, from `getLocalSiderealTime` in
`astronomyUtils.js` (lines 4-21). -/
def getLocalSiderealTime (lon tMs : ℝ) : ℝ :=
  let lst := gmstFinal tMs + lon / 15
  let lstNorm := jsRem lst 24
  if lstNorm < 0 then lstNorm + 24 else lstNorm

/-- Azimuth and elevation pair returned by the celestial transform. -/
structure HorizontalCoords where
  azimuth : ℝ
  elevation : ℝ

/-- Celestial transform from `celestialToHorizontal` in `astronomyUtils.js`
(lines 23-72): right ascension and local sidereal time in hours, declination
and latitude in degrees. -/
def celestialToHorizontal (ra dec lat lst : ℝ) : HorizontalCoords :=
  let raRad := ra * 15 * (Real.pi / 180)
  let decRad := dec * (Real.pi / 180)
  let latRad := lat * (Real.pi / 180)
  let lstRad := lst * 15 * (Real.pi / 180)
  let haRad := lstRad - raRad
  let sinAlt := Real.sin decRad * Real.sin latRad +
    Real.cos decRad * Real.cos latRad * Real.cos haRad
  let altRad := Real.arcsin sinAlt
  let azFromSouth := atan2 (Real.sin haRad)
    (Real.cos haRad * Real.sin latRad - Real.tan decRad * Real.cos latRad)
  let az := azFromSouth + Real.pi
  ⟨az, altRad⟩

/-- Projection of a look angle into the rendering frame, from
`polarToCartesian` in the satellite utility module (lines 88-93). -/
def polarToCartesian (azimuth elevation distance : ℝ) : ℝ × ℝ × ℝ :=
  (distance * Real.cos elevation * Real.sin azimuth,
   distance * Real.sin elevation,
   -distance * Real.cos elevation * Real.cos azimuth)

/-! Helper lemmas about the `atan2` model. -/

theorem atan2_neg_pi_lt (y x : ℝ) : -Real.pi < atan2 y x := by
  have hpi := Real.pi_pos
  have h1 := Real.arctan_lt_pi_div_two (y / x)
  have h2 := Real.neg_pi_div_two_lt_arctan (y / x)
  unfold atan2
  split_ifs with hx hxy hxy2 hxy3 hxy4
  · linarith
  · linarith
  · have hyx : 0 < y / x := div_pos_iff.mpr (Or.inr ⟨hxy2.2, hxy2.1⟩)
    have := Real.arctan_strictMono hyx
    rw [Real.arctan_zero] at this
    linarith
  · linarith
  · linarith
  · linarith

theorem atan2_le_pi (y x : ℝ) : atan2 y x ≤ Real.pi := by
  have hpi := Real.pi_pos
  have h1 := Real.arctan_lt_pi_div_two (y / x)
  have h2 := Real.neg_pi_div_two_lt_arctan (y / x)
  unfold atan2
  split_ifs with hx hxy hxy2 hxy3 hxy4
  · linarith
  · have hyx : y / x ≤ 0 := div_nonpos_iff.mpr (Or.inl ⟨hxy.2, hxy.1.le⟩)
    have := Real.arctan_strictMono.monotone hyx
    rw [Real.arctan_zero] at this
    linarith
  · linarith
  · linarith
  · linarith
  · linarith

theorem atan2_nonneg {y : ℝ} (hy : 0 ≤ y) (x : ℝ) : 0 ≤ atan2 y x := by
  have hpi := Real.pi_pos
  have h2 := Real.neg_pi_div_two_lt_arctan (y / x)
  unfold atan2
  split_ifs with hx hxy hxy2 hxy3 hxy4
  · have hyx : 0 ≤ y / x := div_nonneg hy hx.le
    have := Real.arctan_strictMono.monotone hyx
    rw [Real.arctan_zero] at this
    linarith
  · linarith
  · exact absurd hxy2.2 (not_lt.mpr hy)
  · linarith
  · exact absurd hxy4.2 (not_lt.mpr hy)
  · linarith

theorem atan2_bounds_of_nonneg_x {y x : ℝ} (hx : 0 ≤ x) :
    -(Real.pi / 2) ≤ atan2 y x ∧ atan2 y x ≤ Real.pi / 2 := by
  have hpi := Real.pi_pos
  have h1 := Real.arctan_lt_pi_div_two (y / x)
  have h2 := Real.neg_pi_div_two_lt_arctan (y / x)
  unfold atan2
  split_ifs with h h3 h4 h5 h6
  · exact ⟨h2.le, h1.le⟩
  · exact absurd h3.1 (not_lt.mpr hx)
  · exact absurd h4.1 (not_lt.mpr hx)
  · exact ⟨by linarith, le_refl _⟩
  · exact ⟨le_refl _, by linarith⟩
  · exact ⟨by linarith, by linarith⟩

/-! Helper lemmas about the JavaScript remainder model. -/

theorem jsRem_bounds {b : ℝ} (hb : 0 < b) (a : ℝ) :
    -b < jsRem a b ∧ jsRem a b < b := by
  unfold jsRem jsTrunc
  have hbne : b ≠ 0 := ne_of_gt hb
  have hba : b * (a / b) = a := by field_simp
  split_ifs with h
  · have h1 : ((⌊a / b⌋ : ℝ)) ≤ a / b := Int.floor_le _
    have h2 : a / b < (⌊a / b⌋ : ℝ) + 1 := Int.lt_floor_add_one _
    have h3 : b * ((⌊a / b⌋ : ℝ)) ≤ b * (a / b) :=
      mul_le_mul_of_nonneg_left h1 hb.le
    have h4 : b * (a / b) < b * ((⌊a / b⌋ : ℝ) + 1) :=
      mul_lt_mul_of_pos_left h2 hb
    constructor <;> nlinarith
  · have h1 : a / b ≤ (⌈a / b⌉ : ℝ) := Int.le_ceil _
    have h2 : (⌈a / b⌉ : ℝ) < a / b + 1 := Int.ceil_lt_add_one _
    have h3 : b * (a / b) ≤ b * ((⌈a / b⌉ : ℝ)) :=
      mul_le_mul_of_nonneg_left h1 hb.le
    have h4 : b * ((⌈a / b⌉ : ℝ)) < b * (a / b + 1) :=
      mul_lt_mul_of_pos_left h2 hb
    constructor <;> nlinarith

theorem normalize24_mem {r : ℝ} (h1 : -24 < r) (h2 : r < 24) :
    0 ≤ (if r < 0 then r + 24 else r) ∧ (if r < 0 then r + 24 else r) < 24 := by
  split_ifs with h <;> constructor <;> linarith

/-- Claim C10: for every UTC instant, including instants before the J2000.0
epoch where the days-since-epoch value is negative, and every observer
longitude, `getLocalSiderealTime` returns a Local Sidereal Time in `[0, 24)`,
with the intermediate Greenwich Mean Sidereal Time `gmstFinal` also normalized
into `[0, 24)` by the sign-corrected modulo-24 reduction. -/
theorem getLocalSiderealTime_mem_Ico (lon tMs : ℝ) :
    (0 ≤ gmstFinal tMs ∧ gmstFinal tMs < 24) ∧
    (0 ≤ getLocalSiderealTime lon tMs ∧ getLocalSiderealTime lon tMs < 24) := by
  have h24 : (0 : ℝ) < 24 := by norm_num
  constructor
  · unfold gmstFinal
    have h := jsRem_bounds h24
      (18.697374558 + 24.06570982441908 * ((tMs - epochJ2000ms) / 86400000))
    exact normalize24_mem h.1 h.2
  · unfold getLocalSiderealTime
    have h := jsRem_bounds h24 (gmstFinal tMs + lon / 15)
    exact normalize24_mem h.1 h.2

/-- Claim C4: for an observer at latitude 40.7128 degrees north and a
celestial object at right ascension 0 h and declination 90 degrees (the north
celestial pole), the celestial transform's elevation equals the observer's
latitude in radians, `40.7128 * (pi / 180)`, for every value of the local
sidereal time. -/
theorem celestialPole_elevation_eq_latitude (lst : ℝ) :
    (celestialToHorizontal 0 90 40.7128 lst).elevation = 40.7128 * (Real.pi / 180) := by
  have hpi := Real.pi_pos
  unfold celestialToHorizontal
  simp only
  have h90 : (90 : ℝ) * (Real.pi / 180) = Real.pi / 2 := by ring
  rw [h90, Real.sin_pi_div_two, Real.cos_pi_div_two, one_mul, zero_mul, zero_mul,
    add_zero]
  exact Real.arcsin_sin (by nlinarith) (by nlinarith)

/-- Claim C8: for every display radius `r`, the projection maps azimuth 0,
elevation 0 to `(0, 0, -r)` and azimuth `pi / 2`, elevation 0 to `(r, 0, 0)`,
fixing azimuth 0 to north (negative z) and azimuth `pi / 2` to east
(positive x). -/
theorem polarToCartesian_north_east (r : ℝ) :
    polarToCartesian 0 0 r = (0, 0, -r) ∧
    polarToCartesian (Real.pi / 2) 0 r = (r, 0, 0) := by
  unfold polarToCartesian
  rw [Real.sin_zero, Real.cos_zero, Real.sin_pi_div_two, Real.cos_pi_div_two]
  constructor
  · norm_num
  · norm_num

/-- Earth radius in meters, `6371e3`, shared by both plane-transform variants
and the extrapolation code. -/
def earthRadiusM : ℝ := 6371000

/-- Snapshot of one aircraft state vector, following the OpenSky array layout
consumed by the code: index 0 is the id, 1 the callsign, 3 the position
timestamp, 5 longitude, 6 latitude, 7 barometric altitude, 9 ground speed,
10 heading, 11 vertical rate.  Nullable entries are `Option`; the code
coerces a null altitude, speed, heading or vertical rate to 0. -/
structure PlaneState where
  id : Option String
  callsign : Option String
  timePos : Option ℝ
  lon : Option ℝ
  lat : Option ℝ
  alt : Option ℝ
  velocity : Option ℝ
  heading : Option ℝ
  verticalRate : Option ℝ

/-- Look angle returned by the terrestrial transform. -/
structure PlaneLookAngle where
  azimuth : ℝ
  elevation : ℝ
  range : ℝ
  callsign : Option String

/-- Haversine great-circle surface distance in meters between the observer
and the aircraft ground point, from `getPlanePositionRelative` in
`planeUtils.js` (lines 52-64). -/
def haversineSurfaceDist (observerLat observerLon pLat pLon : ℝ) : ℝ :=
  let dLat := (pLat - observerLat) * Real.pi / 180
  let dLon := (pLon - observerLon) * Real.pi / 180
  let lat1 := observerLat * Real.pi / 180
  let lat2 := pLat * Real.pi / 180
  let a := Real.sin (dLat / 2) * Real.sin (dLat / 2) +
    Real.sin (dLon / 2) * Real.sin (dLon / 2) * Real.cos lat1 * Real.cos lat2
  let c := 2 * atan2 (Real.sqrt a) (Real.sqrt (1 - a))
  earthRadiusM * c

/-- Initial-bearing azimuth of the aircraft ground point as the code computes
it, from `getPlanePositionRelative` in `planeUtils.js` (lines 66-70): a raw
`atan2` with no normalization. -/
def bearingAtan2 (observerLat observerLon pLat pLon : ℝ) : ℝ :=
  let dLon := (pLon - observerLon) * Real.pi / 180
  let lat1 := observerLat * Real.pi / 180
  let lat2 := pLat * Real.pi / 180
  let y := Real.sin dLon * Real.cos lat2
  let x := Real.cos lat1 * Real.sin lat2 - Real.sin lat1 * Real.cos lat2 * Real.cos dLon
  atan2 y x

/-- Terrestrial look-angle transform from `getPlanePositionRelative` in
`src/utils/planeUtils.js` (lines 40-93): haversine range, raw `atan2` bearing
azimuth, and elevation by the flat triangle with the curvature drop
`surfaceDist^2 / (2 R)` subtracted from the altitude difference.  Returns
`none` when latitude or longitude is null. -/
def getPlanePositionRelative (planeState : PlaneState)
    (observerLat observerLon observerAlt : ℝ) : Option PlaneLookAngle :=
  match planeState.lon, planeState.lat with
  | some pLon, some pLat =>
    let pAlt := planeState.alt.getD 0
    let surfaceDist := haversineSurfaceDist observerLat observerLon pLat pLon
    let az := bearingAtan2 observerLat observerLon pLat pLon
    let altDiff := pAlt - observerAlt
    let el := atan2 (altDiff - surfaceDist * surfaceDist / (2 * earthRadiusM)) surfaceDist
    some ⟨az, el, surfaceDist / 1000, planeState.callsign.map (fun s => s.trim)⟩
  | _, _ => none

/-- Earth-curvature-corrected elevation from the curvature-correct variant of
`getPlanePositionRelative` (unnamed variant file, lines 83-102): law of
cosines on the Earth-center, observer, target triangle, with the arcsine
argument clamped to `[-1, 1]` and a zero result at zero slant range. -/
def curvedElevation (surfaceDist observerAlt pAlt : ℝ) : ℝ :=
  let rO := earthRadiusM + observerAlt
  let rT := earthRadiusM + pAlt
  let theta := surfaceDist / earthRadiusM
  let s := Real.sqrt (rO * rO + rT * rT - 2 * rO * rT * Real.cos theta)
  if s = 0 then 0
  else Real.arcsin (max (-1) (min 1 ((rT * Real.cos theta - rO) / s)))

/-- Terrestrial look-angle transform of the curvature-correct variant of
`getPlanePositionRelative` (unnamed variant file, lines 40-110): same
haversine range and bearing, but the bearing is normalized into `[0, 2 pi)`
and the elevation uses `curvedElevation`. -/
def getPlanePositionRelativeCurved (planeState : PlaneState)
    (observerLat observerLon observerAlt : ℝ) : Option PlaneLookAngle :=
  match planeState.lon, planeState.lat with
  | some pLon, some pLat =>
    let pAlt := planeState.alt.getD 0
    let surfaceDist := haversineSurfaceDist observerLat observerLon pLat pLon
    let azRaw := bearingAtan2 observerLat observerLon pLat pLon
    let az := if azRaw < 0 then azRaw + 2 * Real.pi else azRaw
    some ⟨az, curvedElevation surfaceDist observerAlt pAlt,
      surfaceDist / 1000, planeState.callsign.map (fun s => s.trim)⟩
  | _, _ => none

/-- Modelled from the spec: the flat-triangle elevation approximation
`atan2(altitudeDiff, surfaceDistance)` named in section 4.4, stated there as
the formulation the curvature-correct formula must beat.  It appears in the
source only as a comment, so it is defined here from the spec's words for
the comparison claim. -/
def flatTriangleElevation (altitudeDiff surfaceDistance : ℝ) : ℝ :=
  atan2 altitudeDiff surfaceDistance

/-- Earth-centered Cartesian position in kilometers. -/
structure Vec3 where
  x : ℝ
  y : ℝ
  z : ℝ

/-- Dot product of two position vectors, as the code computes it inline. -/
def dot3 (p q : Vec3) : ℝ := p.x * q.x + p.y * q.y + p.z * q.z

/-- Projection length of the object position onto the Sun direction unit
vector, the quantity `L` of `isSunlit` in `astronomyUtils.js`. -/
def sunProjection (satPos sunPos : Vec3) : ℝ :=
  dot3 satPos sunPos / Real.sqrt (dot3 sunPos sunPos)

/-- Illumination filter from `isSunlit` in `astronomyUtils.js`
(lines 226-295): cylindrical shadow model with Earth radius 6371 km. -/
def isSunlit (satPos sunPos : Vec3) : Bool :=
  let re : ℝ := 6371
  let dot := dot3 satPos sunPos
  let sunDistSq := dot3 sunPos sunPos
  let sunDist := Real.sqrt sunDistSq
  let l := dot / sunDist
  if 0 ≤ l then true
  else
    let satDistSq := dot3 satPos satPos
    let distFromAxisSq := satDistSq - l * l
    if distFromAxisSq < re * re then false else true

/-- Result of the external orbital propagator: an optional inertial
position. -/
structure PropagateResult where
  position : Option Vec3

/-- Geodetic observer record passed to the external look-angle routine. -/
structure GeodeticObserver where
  latitude : ℝ
  longitude : ℝ
  height : ℝ

/-- Raw look angles returned by the external `ecfToLookAngles`. -/
structure EcfLookAngles where
  azimuth : ℝ
  elevation : ℝ
  rangeSat : ℝ

/-- Look angle returned by the orbital transform. -/
structure SatLookAngle where
  azimuth : ℝ
  elevation : ℝ
  range : ℝ

/-- Orbital look-angle transform from `getSatPositionRelative` in the
satellite utility module (lines 64-86).  The external satellite.js functions
`propagate`, `gstime`, `eciToEcf` and `ecfToLookAngles` are capability
parameters, matching the spec's external-propagator boundary; the transform
returns `none` when propagation yields no inertial position. -/
def getSatPositionRelative {SatRec Date : Type}
    (propagate : SatRec → Date → PropagateResult)
    (gstime : Date → ℝ)
    (eciToEcf : Vec3 → ℝ → Vec3)
    (ecfToLookAngles : GeodeticObserver → Vec3 → EcfLookAngles)
    (satrec : SatRec) (date : Date)
    (observerLat observerLon observerAlt : ℝ) : Option SatLookAngle :=
  match propagate satrec date with
  | ⟨none⟩ => none
  | ⟨some positionEci⟩ =>
    let gmst := gstime date
    let observerGd : GeodeticObserver :=
      ⟨observerLat * (Real.pi / 180), observerLon * (Real.pi / 180), observerAlt⟩
    let positionEcf := eciToEcf positionEci gmst
    let lookAngles := ecfToLookAngles observerGd positionEcf
    some ⟨lookAngles.azimuth, lookAngles.elevation, lookAngles.rangeSat⟩

/-- Dead-reckoning extrapolation from the `Planes` component of
`UAPTracker.jsx` (lines 149-162), returning the new latitude, longitude and
altitude.  The elapsed time reproduces the JavaScript truthiness test
`timePos ? Math.max(0, now - timePos) : 0`, so a timestamp of exactly 0 is
treated like a missing one. -/
def extrapolatePosition (now lat lon alt velocity heading verticalRate : ℝ)
    (timePos : Option ℝ) : ℝ × ℝ × ℝ :=
  let elapsedSeconds :=
    match timePos with
    | some tp => if tp = 0 then 0 else max 0 (now - tp)
    | none => 0
  let headingRad := heading * Real.pi / 180
  let latRad := lat * Real.pi / 180
  let distMoved := velocity * elapsedSeconds
  let dLat := distMoved * Real.cos headingRad / earthRadiusM
  let dLon := distMoved * Real.sin headingRad / (earthRadiusM * Real.cos latRad)
  (lat + dLat * 180 / Real.pi, lon + dLon * 180 / Real.pi,
   alt + verticalRate * elapsedSeconds)

/-- One rendered aircraft entry of a frame. -/
structure RenderedPlane where
  id : Option String
  callsign : Option String
  position : ℝ × ℝ × ℝ
  heading : ℝ

/-- Per-aircraft frame computation from the `Planes` component of
`UAPTracker.jsx` (lines 135-181): default null numeric fields to 0,
drop aircraft with null latitude or longitude, extrapolate, transform
relative to the observer, drop aircraft below the horizon, and project at
display radius 60. -/
def processPlane (now observerLat observerLon : ℝ) (plane : PlaneState) :
    Option RenderedPlane :=
  let velocity := plane.velocity.getD 0
  let heading := plane.heading.getD 0
  let alt := plane.alt.getD 0
  let verticalRate := plane.verticalRate.getD 0
  match plane.lat, plane.lon with
  | some lat, some lon =>
    let p := extrapolatePosition now lat lon alt velocity heading verticalRate
      plane.timePos
    let virtualPlane : PlaneState :=
      ⟨plane.id, plane.callsign, plane.timePos, some p.2.1, some p.1,
        some p.2.2, plane.velocity, plane.heading, plane.verticalRate⟩
    match getPlanePositionRelative virtualPlane observerLat observerLon 0 with
    | none => none
    | some relativePos =>
      if relativePos.elevation < 0 then none
      else
        let pos := polarToCartesian relativePos.azimuth relativePos.elevation 60
        some ⟨plane.id,
          (match relativePos.callsign with
           | some s => if s = "" then plane.id else some s
           | none => plane.id), pos, heading⟩
  | _, _ => none

/-- Frame output for the aircraft list: per-aircraft results with the `none`
entries omitted, as the code's `.map ... .filter(p => p !== null)`. -/
def processPlanes (now observerLat observerLon : ℝ)
    (planes : List PlaneState) : List RenderedPlane :=
  planes.filterMap (processPlane now observerLat observerLon)

/-! Helper lemmas about the terrestrial transform. -/

theorem atan2_zero_left {x : ℝ} (hx : 0 ≤ x) : atan2 0 x = 0 := by
  unfold atan2
  split_ifs with h1 h2 h3 h4
  · rw [zero_div, Real.arctan_zero]
  · exact absurd h2.1 (not_lt.mpr hx)
  · exact absurd h3.2 (lt_irrefl 0)
  · exact absurd h4.2 (lt_irrefl 0)
  · rfl

theorem haversineSurfaceDist_self (lat lon : ℝ) :
    haversineSurfaceDist lat lon lat lon = 0 := by
  unfold haversineSurfaceDist
  simp only [sub_self, zero_mul, zero_div, Real.sin_zero, mul_zero, zero_add,
    Real.sqrt_zero, sub_zero, Real.sqrt_one]
  rw [atan2_zero_left (by norm_num)]
  ring

theorem haversineSurfaceDist_nonneg (oLat oLon pLat pLon : ℝ) :
    0 ≤ haversineSurfaceDist oLat oLon pLat pLon := by
  unfold haversineSurfaceDist
  simp only
  refine mul_nonneg (by norm_num [earthRadiusM]) (mul_nonneg (by norm_num) ?_)
  exact atan2_nonneg (Real.sqrt_nonneg _) _

theorem bearingAtan2_bounds (a b c d : ℝ) :
    -Real.pi < bearingAtan2 a b c d ∧ bearingAtan2 a b c d ≤ Real.pi := by
  unfold bearingAtan2
  exact ⟨atan2_neg_pi_lt _ _, atan2_le_pi _ _⟩

theorem bearingAtan2_self (lat lon : ℝ) : bearingAtan2 lat lon lat lon = 0 := by
  unfold bearingAtan2
  simp only [sub_self, zero_mul, zero_div, Real.sin_zero, Real.cos_zero, mul_one]
  have hx : Real.cos (lat * Real.pi / 180) * Real.sin (lat * Real.pi / 180) -
      Real.sin (lat * Real.pi / 180) * Real.cos (lat * Real.pi / 180) = 0 := by ring
  rw [hx]
  exact atan2_zero_left le_rfl

theorem curvedElevation_zero_dist (alt : ℝ) : curvedElevation 0 alt alt = 0 := by
  unfold curvedElevation
  simp only [zero_div, Real.cos_zero, mul_one]
  have hx : ∀ x : ℝ, x * x + x * x - 2 * x * x = 0 := fun x => by ring
  rw [hx (earthRadiusM + alt), Real.sqrt_zero, if_pos rfl]

theorem getPlanePositionRelative_coincident (lat lon alt : ℝ)
    (idv cs : Option String) (tp v hd vr : Option ℝ) :
    (getPlanePositionRelative ⟨idv, cs, tp, some lon, some lat, some alt, v, hd, vr⟩
        lat lon alt).map (fun la => (la.elevation, la.range)) = some (0, 0) := by
  unfold getPlanePositionRelative
  simp only [Option.getD_some, Option.map_some]
  rw [haversineSurfaceDist_self]
  norm_num [atan2_zero_left]

theorem getPlanePositionRelativeCurved_coincident (lat lon alt : ℝ)
    (idv cs : Option String) (tp v hd vr : Option ℝ) :
    (getPlanePositionRelativeCurved ⟨idv, cs, tp, some lon, some lat, some alt, v, hd, vr⟩
        lat lon alt).map (fun la => (la.elevation, la.range)) = some (0, 0) := by
  unfold getPlanePositionRelativeCurved
  simp only [Option.getD_some, Option.map_some]
  rw [haversineSurfaceDist_self, curvedElevation_zero_dist]
  norm_num

theorem celestialToHorizontal_bounds (ra dec lat lst : ℝ) :
    0 < (celestialToHorizontal ra dec lat lst).azimuth ∧
    (celestialToHorizontal ra dec lat lst).azimuth ≤ 2 * Real.pi ∧
    -(Real.pi / 2) ≤ (celestialToHorizontal ra dec lat lst).elevation ∧
    (celestialToHorizontal ra dec lat lst).elevation ≤ Real.pi / 2 := by
  unfold celestialToHorizontal
  simp only
  have hpi := Real.pi_pos
  have h1 := atan2_neg_pi_lt (Real.sin (lst * 15 * (Real.pi / 180) - ra * 15 * (Real.pi / 180)))
    (Real.cos (lst * 15 * (Real.pi / 180) - ra * 15 * (Real.pi / 180)) *
      Real.sin (lat * (Real.pi / 180)) -
     Real.tan (dec * (Real.pi / 180)) * Real.cos (lat * (Real.pi / 180)))
  have h2 := atan2_le_pi (Real.sin (lst * 15 * (Real.pi / 180) - ra * 15 * (Real.pi / 180)))
    (Real.cos (lst * 15 * (Real.pi / 180) - ra * 15 * (Real.pi / 180)) *
      Real.sin (lat * (Real.pi / 180)) -
     Real.tan (dec * (Real.pi / 180)) * Real.cos (lat * (Real.pi / 180)))
  refine ⟨by linarith, by linarith, Real.neg_pi_div_two_le_arcsin _,
    Real.arcsin_le_pi_div_two _⟩

theorem getPlanePositionRelative_bounds (st : PlaneState) (oLat oLon oAlt : ℝ)
    (la : PlaneLookAngle)
    (h : getPlanePositionRelative st oLat oLon oAlt = some la) :
    -Real.pi < la.azimuth ∧ la.azimuth ≤ Real.pi ∧
    -(Real.pi / 2) ≤ la.elevation ∧ la.elevation ≤ Real.pi / 2 := by
  unfold getPlanePositionRelative at h
  cases hlon : st.lon with
  | none => rw [hlon] at h; exact absurd h (by simp)
  | some pLon =>
    cases hlat : st.lat with
    | none => rw [hlon, hlat] at h; exact absurd h (by simp)
    | some pLat =>
      rw [hlon, hlat] at h
      simp only [Option.some.injEq] at h
      subst h
      refine ⟨(bearingAtan2_bounds oLat oLon pLat pLon).1,
        (bearingAtan2_bounds oLat oLon pLat pLon).2, ?_, ?_⟩
      · exact (atan2_bounds_of_nonneg_x (haversineSurfaceDist_nonneg oLat oLon pLat pLon)).1
      · exact (atan2_bounds_of_nonneg_x (haversineSurfaceDist_nonneg oLat oLon pLat pLon)).2

/-- Claim C1 (amended): the celestial transform's azimuth lies in the
half-open interval `(0, 2 pi]` (the endpoint `2 pi` is attained, see the
counterexample) and its elevation in `[-pi/2, pi/2]`; the terrestrial
transform `getPlanePositionRelative` returns a raw `atan2` azimuth in
`(-pi, pi]` (the code never normalizes it into `[0, 2 pi)`) and an
elevation in `[-pi/2, pi/2]`. -/
theorem lookAngle_component_bounds :
    (∀ ra dec lat lst,
      0 < (celestialToHorizontal ra dec lat lst).azimuth ∧
      (celestialToHorizontal ra dec lat lst).azimuth ≤ 2 * Real.pi ∧
      -(Real.pi / 2) ≤ (celestialToHorizontal ra dec lat lst).elevation ∧
      (celestialToHorizontal ra dec lat lst).elevation ≤ Real.pi / 2) ∧
    (∀ st oLat oLon oAlt la,
      getPlanePositionRelative st oLat oLon oAlt = some la →
      -Real.pi < la.azimuth ∧ la.azimuth ≤ Real.pi ∧
      -(Real.pi / 2) ≤ la.elevation ∧ la.elevation ≤ Real.pi / 2) :=
  ⟨fun ra dec lat lst => celestialToHorizontal_bounds ra dec lat lst,
   fun st oLat oLon oAlt la h => getPlanePositionRelative_bounds st oLat oLon oAlt la h⟩

/-- Claim C1 witness: at a coincident observer and aircraft both look-angle
components evaluate to 0 and the bounds hold there. -/
theorem lookAngle_component_bounds_witness :
    getPlanePositionRelative ⟨none, none, none, some 0, some 0, none, none, none, none⟩
        0 0 0 = some ⟨0, 0, 0, none⟩ ∧
    (-Real.pi < (0 : ℝ) ∧ (0 : ℝ) ≤ Real.pi ∧
      -(Real.pi / 2) ≤ (0 : ℝ) ∧ (0 : ℝ) ≤ Real.pi / 2) := by
  have h : getPlanePositionRelative
      ⟨none, none, none, some 0, some 0, none, none, none, none⟩ 0 0 0 =
      some ⟨0, 0, 0, none⟩ := by
    unfold getPlanePositionRelative
    simp only [Option.getD_none, Option.map_none]
    rw [haversineSurfaceDist_self, bearingAtan2_self]
    norm_num [atan2_zero_left]
  exact ⟨h, by simpa using lookAngle_component_bounds.2 _ 0 0 0 _ h⟩

/-- Claim C1 counterexample: for right ascension 0 h, declination 45 degrees,
observer latitude 0 and LST 0 h the celestial transform returns azimuth
exactly `2 pi`, which is not in `[0, 2 pi)`. -/
theorem lookAngle_azimuth_cex :
    (celestialToHorizontal 0 45 0 0).azimuth = 2 * Real.pi ∧
    ¬ ((celestialToHorizontal 0 45 0 0).azimuth < 2 * Real.pi) := by
  have h : (celestialToHorizontal 0 45 0 0).azimuth = 2 * Real.pi := by
    unfold celestialToHorizontal
    simp only
    norm_num
    have h45 : (45 : ℝ) * (Real.pi / 180) = Real.pi / 4 := by ring
    rw [h45, Real.tan_pi_div_four]
    have hm : atan2 0 (-1) = Real.pi := by
      unfold atan2
      rw [if_neg (by norm_num), if_pos ⟨by norm_num, le_refl (0 : ℝ)⟩]
      rw [zero_div, Real.arctan_zero, zero_add]
    rw [hm]
    ring
  exact ⟨h, by rw [h]; exact lt_irrefl _⟩

/-- Claim C3 (amended): for every observer and target at identical latitude,
longitude and altitude, the terrestrial transform returns elevation 0 (the
degenerate coincident-points rule) and range 0, in the curvature-corrected
variant and in the flat variant alike. -/
theorem coincident_observer_target (lat lon alt : ℝ) :
    (getPlanePositionRelativeCurved
        ⟨none, none, none, some lon, some lat, some alt, none, none, none⟩
        lat lon alt).map (fun la => (la.elevation, la.range)) = some (0, 0) ∧
    (getPlanePositionRelative
        ⟨none, none, none, some lon, some lat, some alt, none, none, none⟩
        lat lon alt).map (fun la => (la.elevation, la.range)) = some (0, 0) :=
  ⟨getPlanePositionRelativeCurved_coincident lat lon alt none none none none none none,
   getPlanePositionRelative_coincident lat lon alt none none none none none none⟩

/-- Claim C3 counterexample: at identical observer and target (latitude 10,
longitude 20, altitude 100 m) the curvature-corrected transform returns
elevation 0, not `pi / 2`. -/
theorem coincident_observer_target_cex :
    (getPlanePositionRelativeCurved
        ⟨none, none, none, some 20, some 10, some 100, none, none, none⟩
        10 20 100).map (fun la => (la.elevation, la.range)) = some (0, 0) ∧
    (0 : ℝ) ≠ Real.pi / 2 := by
  refine ⟨getPlanePositionRelativeCurved_coincident 10 20 100 none none none none none none, ?_⟩
  have := Real.pi_pos
  intro h
  linarith [h]

/-- Claim C7: in both variants of the terrestrial transform the returned
range is the haversine surface distance divided by 1000, an expression that
mentions neither the observer nor the target altitude; in particular a
target at the observer's own latitude and longitude has range 0 at any
altitude. -/
theorem range_is_surface_distance :
    (∀ (st : PlaneState) (oLat oLon oAlt pLat pLon : ℝ),
      st.lat = some pLat → st.lon = some pLon →
      (getPlanePositionRelative st oLat oLon oAlt).map PlaneLookAngle.range =
        some (haversineSurfaceDist oLat oLon pLat pLon / 1000) ∧
      (getPlanePositionRelativeCurved st oLat oLon oAlt).map PlaneLookAngle.range =
        some (haversineSurfaceDist oLat oLon pLat pLon / 1000)) ∧
    (∀ lat lon alt oAlt : ℝ,
      (getPlanePositionRelative
          ⟨none, none, none, some lon, some lat, some alt, none, none, none⟩
          lat lon oAlt).map PlaneLookAngle.range = some 0 ∧
      (getPlanePositionRelativeCurved
          ⟨none, none, none, some lon, some lat, some alt, none, none, none⟩
          lat lon oAlt).map PlaneLookAngle.range = some 0) := by
  have key : ∀ (st : PlaneState) (oLat oLon oAlt pLat pLon : ℝ),
      st.lat = some pLat → st.lon = some pLon →
      (getPlanePositionRelative st oLat oLon oAlt).map PlaneLookAngle.range =
        some (haversineSurfaceDist oLat oLon pLat pLon / 1000) ∧
      (getPlanePositionRelativeCurved st oLat oLon oAlt).map PlaneLookAngle.range =
        some (haversineSurfaceDist oLat oLon pLat pLon / 1000) := by
    intro st oLat oLon oAlt pLat pLon hlat hlon
    unfold getPlanePositionRelative getPlanePositionRelativeCurved
    rw [hlat, hlon]
    constructor <;> simp
  refine ⟨key, fun lat lon alt oAlt => ?_⟩
  have h := key ⟨none, none, none, some lon, some lat, some alt, none, none, none⟩
    lat lon oAlt lat lon rfl rfl
  rw [haversineSurfaceDist_self, zero_div] at h
  exact h

/-- Claim C7 witness: the range equality applied at a concrete aircraft
state and observer. -/
theorem range_is_surface_distance_witness :
    ((⟨none, none, none, some 3, some 7, none, none, none, none⟩ : PlaneState).lat =
      some 7) ∧
    ((⟨none, none, none, some 3, some 7, none, none, none, none⟩ : PlaneState).lon =
      some 3) ∧
    (getPlanePositionRelative ⟨none, none, none, some 3, some 7, none, none, none, none⟩
        1 2 5).map PlaneLookAngle.range = some (haversineSurfaceDist 1 2 7 3 / 1000) :=
  ⟨rfl, rfl, (range_is_surface_distance.1 _ 1 2 5 7 3 rfl rfl).1⟩

theorem getPlanePositionRelative_none_of_null (st : PlaneState)
    (oLat oLon oAlt : ℝ) (h : st.lat = none ∨ st.lon = none) :
    getPlanePositionRelative st oLat oLon oAlt = none := by
  unfold getPlanePositionRelative
  rcases h with h | h
  · rw [h]; cases hl : st.lon <;> rfl
  · rw [h]

theorem processPlane_none_of_null (now oLat oLon : ℝ) (st : PlaneState)
    (h : st.lat = none ∨ st.lon = none) :
    processPlane now oLat oLon st = none := by
  unfold processPlane
  rcases h with h | h
  · rw [h]
  · rw [h]; cases hl : st.lat <;> rfl

theorem getSatPositionRelative_none {SatRec Date : Type}
    (propagate : SatRec → Date → PropagateResult) (gstime : Date → ℝ)
    (eciToEcf : Vec3 → ℝ → Vec3)
    (ecfToLookAngles : GeodeticObserver → Vec3 → EcfLookAngles)
    (satrec : SatRec) (date : Date) (oLat oLon oAlt : ℝ)
    (h : (propagate satrec date).position = none) :
    getSatPositionRelative propagate gstime eciToEcf ecfToLookAngles satrec date
      oLat oLon oAlt = none := by
  unfold getSatPositionRelative
  rcases hp : propagate satrec date with ⟨pos⟩
  rw [hp] at h
  have h' : pos = none := h
  subst h'
  rfl

theorem processPlanes_cons_null (now oLat oLon : ℝ) (st : PlaneState)
    (rest : List PlaneState) (h : st.lat = none ∨ st.lon = none) :
    processPlanes now oLat oLon (st :: rest) = processPlanes now oLat oLon rest := by
  unfold processPlanes
  rw [List.filterMap_cons, processPlane_none_of_null now oLat oLon st h]

/-- Claim C9: an aircraft state with null latitude or longitude makes the
terrestrial transform return `none`, a satellite whose propagation yields no
inertial position makes the orbital transform return `none`, and a null
aircraft is omitted from the frame's output list rather than raising an
error. -/
theorem missing_position_yields_none :
    (∀ (st : PlaneState) (oLat oLon oAlt : ℝ), st.lat = none ∨ st.lon = none →
      getPlanePositionRelative st oLat oLon oAlt = none) ∧
    (∀ (SatRec Date : Type) (propagate : SatRec → Date → PropagateResult)
      (gstime : Date → ℝ) (eciToEcf : Vec3 → ℝ → Vec3)
      (ecfToLookAngles : GeodeticObserver → Vec3 → EcfLookAngles)
      (satrec : SatRec) (date : Date) (oLat oLon oAlt : ℝ),
      (propagate satrec date).position = none →
      getSatPositionRelative propagate gstime eciToEcf ecfToLookAngles satrec date
        oLat oLon oAlt = none) ∧
    (∀ (now oLat oLon : ℝ) (st : PlaneState) (rest : List PlaneState),
      st.lat = none ∨ st.lon = none →
      processPlanes now oLat oLon (st :: rest) = processPlanes now oLat oLon rest) :=
  ⟨fun st oLat oLon oAlt h => getPlanePositionRelative_none_of_null st oLat oLon oAlt h,
   fun _ _ propagate gstime eciToEcf ecfToLookAngles satrec date oLat oLon oAlt h =>
     getSatPositionRelative_none propagate gstime eciToEcf ecfToLookAngles satrec date
       oLat oLon oAlt h,
   fun now oLat oLon st rest h => processPlanes_cons_null now oLat oLon st rest h⟩

/-- Claim C9 witness: the omission behaviour applied at a concrete null
aircraft state and a propagator that yields no position. -/
theorem missing_position_yields_none_witness :
    ((⟨none, none, none, some 5, none, none, none, none, none⟩ : PlaneState).lat =
      none) ∧
    getPlanePositionRelative ⟨none, none, none, some 5, none, none, none, none, none⟩
      0 0 0 = none ∧
    getSatPositionRelative (fun (_ : Unit) (_ : Unit) => PropagateResult.mk none)
      (fun _ => 0) (fun p _ => p) (fun _ _ => ⟨0, 0, 0⟩) () () 0 0 0 = none ∧
    processPlanes 0 0 0 [⟨none, none, none, some 5, none, none, none, none, none⟩] =
      processPlanes 0 0 0 [] :=
  ⟨rfl,
   missing_position_yields_none.1 _ 0 0 0 (Or.inl rfl),
   missing_position_yields_none.2.1 Unit Unit _ _ _ _ () () 0 0 0 rfl,
   missing_position_yields_none.2.2 0 0 0 _ [] (Or.inl rfl)⟩

/-- Claim C5: for every object position and non-null Sun position, with `L`
the projection of the object position onto the Sun direction unit vector,
`isSunlit` returns true whenever `0 ≤ L`; and when `L < 0` it returns false
exactly when the perpendicular distance from the Sun-Earth axis,
`sqrt(|P|^2 - L^2)`, is less than Earth's mean radius 6371 km. -/
theorem isSunlit_characterization (satPos sunPos : Vec3)
    (hS : ¬ (sunPos.x = 0 ∧ sunPos.y = 0 ∧ sunPos.z = 0)) :
    (0 ≤ sunProjection satPos sunPos → isSunlit satPos sunPos = true) ∧
    (sunProjection satPos sunPos < 0 →
      (isSunlit satPos sunPos = false ↔
        Real.sqrt (dot3 satPos satPos - sunProjection satPos sunPos ^ 2) < 6371)) := by
  unfold isSunlit sunProjection
  simp only
  constructor
  · intro h0
    rw [if_pos h0]
  · intro hneg
    rw [if_neg (not_le.mpr hneg)]
    have hiff : Real.sqrt (dot3 satPos satPos -
        (dot3 satPos sunPos / Real.sqrt (dot3 sunPos sunPos)) ^ 2) < 6371 ↔
        dot3 satPos satPos -
          (dot3 satPos sunPos / Real.sqrt (dot3 sunPos sunPos)) ^ 2 < 6371 ^ 2 :=
      Real.sqrt_lt' (by norm_num)
    rw [hiff]
    have hsq : (dot3 satPos sunPos / Real.sqrt (dot3 sunPos sunPos)) ^ 2 =
        dot3 satPos sunPos / Real.sqrt (dot3 sunPos sunPos) *
          (dot3 satPos sunPos / Real.sqrt (dot3 sunPos sunPos)) := sq _
    rw [hsq]
    split_ifs with hd
    · simp only [true_iff]
      calc dot3 satPos satPos - dot3 satPos sunPos / Real.sqrt (dot3 sunPos sunPos) *
            (dot3 satPos sunPos / Real.sqrt (dot3 sunPos sunPos)) < 6371 * 6371 := hd
        _ = 6371 ^ 2 := by norm_num
    · simp only [false_iff, not_lt]
      have : (6371 : ℝ) * 6371 ≤ dot3 satPos satPos -
          dot3 satPos sunPos / Real.sqrt (dot3 sunPos sunPos) *
            (dot3 satPos sunPos / Real.sqrt (dot3 sunPos sunPos)) := not_lt.mp hd
      calc (6371 : ℝ) ^ 2 = 6371 * 6371 := by norm_num
        _ ≤ _ := this

/-- Claim C5 witness: an object exactly along the Sun vector is reported
sunlit. -/
theorem isSunlit_characterization_witness :
    (¬ ((⟨1, 0, 0⟩ : Vec3).x = 0 ∧ (⟨1, 0, 0⟩ : Vec3).y = 0 ∧
        (⟨1, 0, 0⟩ : Vec3).z = 0)) ∧
    isSunlit ⟨1, 0, 0⟩ ⟨1, 0, 0⟩ = true := by
  have hS : ¬ ((⟨1, 0, 0⟩ : Vec3).x = 0 ∧ (⟨1, 0, 0⟩ : Vec3).y = 0 ∧
      (⟨1, 0, 0⟩ : Vec3).z = 0) := by
    intro h
    exact one_ne_zero h.1
  refine ⟨hS, (isSunlit_characterization ⟨1, 0, 0⟩ ⟨1, 0, 0⟩ hS).1 ?_⟩
  unfold sunProjection dot3
  norm_num [Real.sqrt_one]

/-- Claim C6 (amended): for every aircraft state with a non-zero timestamp,
heading 0 (due north), positive ground speed and latitude strictly between
-90 and 90 degrees, dead-reckoning extrapolation at any instant strictly
later than the timestamp produces a strictly greater latitude and an
unchanged longitude.  The non-zero timestamp proviso is forced by the
code's JavaScript truthiness test, which treats a timestamp of exactly 0 as
missing and skips extrapolation. -/
theorem extrapolate_north_increases_latitude
    (now lat lon alt v vr tp : ℝ) (htp : tp ≠ 0) (hnow : tp < now)
    (hv : 0 < v) (hlat1 : -90 < lat) (hlat2 : lat < 90) :
    lat < (extrapolatePosition now lat lon alt v 0 vr (some tp)).1 ∧
    (extrapolatePosition now lat lon alt v 0 vr (some tp)).2.1 = lon := by
  have hpi := Real.pi_pos
  unfold extrapolatePosition
  simp only [zero_mul, zero_div, Real.cos_zero, Real.sin_zero, mul_one, mul_zero]
  rw [if_neg htp]
  have helapsed : max 0 (now - tp) = now - tp := max_eq_right (by linarith)
  rw [helapsed]
  constructor
  · have h1 : 0 < v * (now - tp) := mul_pos hv (by linarith)
    have h2 : 0 < v * (now - tp) / earthRadiusM :=
      div_pos h1 (by norm_num [earthRadiusM])
    have h3 : 0 < v * (now - tp) / earthRadiusM * 180 / Real.pi :=
      div_pos (by linarith) hpi
    linarith
  · ring

/-- Claim C6 witness: the amended extrapolation property at a concrete
northbound aircraft. -/
theorem extrapolate_north_increases_latitude_witness :
    ((5 : ℝ) ≠ 0 ∧ (5 : ℝ) < 15 ∧ (0 : ℝ) < 100 ∧ (-90 : ℝ) < 40 ∧ (40 : ℝ) < 90) ∧
    (40 < (extrapolatePosition 15 40 0 1000 100 0 0 (some 5)).1 ∧
      (extrapolatePosition 15 40 0 1000 100 0 0 (some 5)).2.1 = 0) :=
  ⟨by norm_num,
   extrapolate_north_increases_latitude 15 40 0 1000 100 0 5 (by norm_num)
     (by norm_num) (by norm_num) (by norm_num) (by norm_num)⟩

/-- Claim C6 counterexample: a state with timestamp exactly 0 and current
time 10 is strictly later than the timestamp, yet the latitude does not
move, because the truthiness test treats the 0 timestamp as missing. -/
theorem extrapolate_zero_timestamp_cex :
    (extrapolatePosition 10 40 0 1000 100 0 0 (some 0)).1 = 40 ∧
    ¬ (40 < (extrapolatePosition 10 40 0 1000 100 0 0 (some 0)).1) := by
  have h : (extrapolatePosition 10 40 0 1000 100 0 0 (some 0)).1 = 40 := by
    unfold extrapolatePosition
    norm_num
  exact ⟨h, by rw [h]; exact lt_irrefl _⟩

/-- Claim C2: at surface distance 300 km, target altitude 10000 m and
observer altitude 0, the curvature-corrected elevation formula of the code
yields a strictly lower elevation than the flat-triangle approximation
`atan2(altitudeDiff, surfaceDistance)` described by the spec. -/
theorem curved_elevation_lt_flat_at_300km :
    curvedElevation 300000 0 10000 < flatTriangleElevation 10000 300000 := by
  have habs : |(300 : ℝ) / 6371| ≤ 1 := by
    rw [abs_of_nonneg (by norm_num)]
    norm_num
  have hcos_ub : Real.cos (300 / 6371) ≤
      1 - (300 / 6371 : ℝ) ^ 2 / 2 + (300 / 6371 : ℝ) ^ 4 * (5 / 96) := by
    have h := Real.cos_bound habs
    have h2 := (abs_le.mp h).2
    rw [abs_of_nonneg (by norm_num : (0 : ℝ) ≤ 300 / 6371)] at h2
    linarith
  have hE_lb : (300000 : ℝ) ^ 2 ≤
      81306802000000 - 81306702000000 * Real.cos (300 / 6371) := by
    nlinarith [hcos_ub]
  have hs_lb : (300000 : ℝ) ≤
      Real.sqrt (81306802000000 - 81306702000000 * Real.cos (300 / 6371)) :=
    (Real.le_sqrt' (by norm_num)).mpr hE_lb
  have hs_pos : (0 : ℝ) <
      Real.sqrt (81306802000000 - 81306702000000 * Real.cos (300 / 6371)) := by
    linarith
  have hs_ne : ¬ (Real.sqrt
      (81306802000000 - 81306702000000 * Real.cos (300 / 6371)) = 0) :=
    ne_of_gt hs_pos
  have hnum : 6381000 * Real.cos (300 / 6371) - 6371000 ≤ (2930 : ℝ) := by
    nlinarith [hcos_ub]
  have hv : (6381000 * Real.cos (300 / 6371) - 6371000) /
      Real.sqrt (81306802000000 - 81306702000000 * Real.cos (300 / 6371)) ≤
      293 / 30000 := by
    rw [div_le_div_iff₀ hs_pos (by norm_num)]
    nlinarith [hnum, hs_lb]
  have hclamp_le : max (-1) (min 1 ((6381000 * Real.cos (300 / 6371) - 6371000) /
      Real.sqrt (81306802000000 - 81306702000000 * Real.cos (300 / 6371)))) ≤
      293 / 30000 :=
    max_le (by norm_num) (le_trans (min_le_right _ _) hv)
  have harc1 : Real.arcsin (max (-1) (min 1
      ((6381000 * Real.cos (300 / 6371) - 6371000) /
        Real.sqrt (81306802000000 - 81306702000000 * Real.cos (300 / 6371))))) ≤
      Real.arcsin (293 / 30000) :=
    Real.monotone_arcsin hclamp_le
  have harc2 : Real.arcsin ((293 : ℝ) / 30000) =
      Real.arctan ((293 / 30000) / Real.sqrt (1 - (293 / 30000 : ℝ) ^ 2)) :=
    Real.arcsin_eq_arctan (by constructor <;> norm_num)
  have hsq : (9 / 10 : ℝ) ≤ Real.sqrt (1 - (293 / 30000 : ℝ) ^ 2) :=
    (Real.le_sqrt' (by norm_num)).mpr (by norm_num)
  have harg : (293 / 30000 : ℝ) / Real.sqrt (1 - (293 / 30000 : ℝ) ^ 2) < 1 / 30 := by
    rw [div_lt_div_iff₀ (by linarith) (by norm_num)]
    nlinarith [hsq]
  have harc3 : Real.arctan ((293 / 30000 : ℝ) /
      Real.sqrt (1 - (293 / 30000 : ℝ) ^ 2)) < Real.arctan (1 / 30) :=
    Real.arctan_strictMono harg
  unfold curvedElevation flatTriangleElevation atan2 earthRadiusM
  norm_num only
  rw [if_neg hs_ne, if_pos trivial]
  calc Real.arcsin (max (-1) (min 1 ((6381000 * Real.cos (300 / 6371) - 6371000) /
        Real.sqrt (81306802000000 - 81306702000000 * Real.cos (300 / 6371))))) ≤
      Real.arcsin (293 / 30000) := harc1
    _ = Real.arctan ((293 / 30000) / Real.sqrt (1 - (293 / 30000 : ℝ) ^ 2)) := harc2
    _ < Real.arctan (1 / 30) := harc3

end
